import Mathlib

/-!
Verification of the FVG (Fair Value Gap) detector of this repository.

The detector lives in src/actions/fvg-analysis/fvg-analysis.ts as the
function fvgAnalysisAction.  It scans an ordered candlestick sequence with
a sliding window of three consecutive candles, emitting a bullish event
when the low of the third candle is above the high of the first one, and a
bearish event when the high of the third candle is below the low of the
first one.  Prices and volumes are JavaScript numbers; we embed them as
rationals so that the comparisons and differences of the code are exact.
Timestamps are epoch-millisecond integers.
-/

namespace Fvg

/-- Candlestick record, from the Candlestick interface in
src/actions/market-data/fetch-market-data.ts: fields open, close, high,
low, volume (numbers) and time (a timestamp in milliseconds). -/
structure Candlestick where
  «open» : ℚ
  close : ℚ
  high : ℚ
  low : ℚ
  volume : ℚ
  time : ℤ
deriving DecidableEq, Inhabited

/-- FVG type: the source stores the string literal "bullish" or "bearish"
in the fvgType field. -/
inductive FvgType where
  | bullish
  | bearish
deriving DecidableEq, Inhabited

/-- FvgAnalysisResult, from src/actions/fvg-analysis/fvg-analysis.ts
lines 32-43. -/
structure FvgAnalysisResult where
  fvgType : FvgType
  startTime : ℤ
  endTime : ℤ
  gapSize : ℚ
  volume : ℚ
deriving DecidableEq, Inhabited

/-- ActionState, the uniform result wrapper of the repository (fields
isSuccess, message, data).  The failure return of fvgAnalysisAction omits
data, so data is an Option here: none models the failure branch that
returns no data. -/
structure ActionState where
  isSuccess : Bool
  message : String
  data : Option (List FvgAnalysisResult)
deriving DecidableEq

/-- Events pushed for one window (candle1, candle2, candle3): the body of
the loop of fvgAnalysisAction, lines 74-106 of fvg-analysis.ts.  The two
tests are independent if-statements (not else-if), the bullish push
preceding the bearish push. -/
def windowEvents (candle1 candle2 candle3 : Candlestick) : List FvgAnalysisResult :=
  let totalVolume := candle1.volume + candle2.volume + candle3.volume
  (if candle3.low > candle1.high then
    [{ fvgType := FvgType.bullish
       startTime := candle1.time
       endTime := candle3.time
       gapSize := candle3.low - candle1.high
       volume := totalVolume }]
   else []) ++
  (if candle3.high < candle1.low then
    [{ fvgType := FvgType.bearish
       startTime := candle1.time
       endTime := candle3.time
       gapSize := candle1.low - candle3.high
       volume := totalVolume }]
   else [])

/-- The sliding-window loop of fvgAnalysisAction (lines 69-107): for each
window start index i from 0 to length minus 3, the events of the window
at i, i+1, i+2 are appended in order of i.  Advancing the index by one is
dropping the head of the list. -/
def fvgScan : List Candlestick → List FvgAnalysisResult
  | candle1 :: candle2 :: candle3 :: rest =>
      windowEvents candle1 candle2 candle3 ++ fvgScan (candle2 :: candle3 :: rest)
  | _ => []

/-- fvgAnalysisAction, from src/actions/fvg-analysis/fvg-analysis.ts
lines 52-124.  Fewer than 3 candles short-circuits to a success with an
empty result list; otherwise the loop runs and a success with the
accumulated results is returned.  No operation of the body can throw on
well-typed numeric input, so the catch branch does not appear. -/
def fvgAnalysisAction (candlesticks : List Candlestick) : ActionState :=
  if candlesticks.length < 3 then
    { isSuccess := true
      message := "Not enough data to perform FVG analysis."
      data := some [] }
  else
    { isSuccess := true
      message := "FVG analysis completed successfully."
      data := some (fvgScan candlesticks) }

/-- The events of the window starting at index i, read off the list by
index exactly as the loop reads candlesticks at i, i+1 and i+2. -/
def eventsAt (cs : List Candlestick) (i : Nat) : List FvgAnalysisResult :=
  windowEvents (cs.getD i default) (cs.getD (i + 1) default) (cs.getD (i + 2) default)

/-- Number of events emitted before window i is processed: the total
length of the events of all windows with start index below i. -/
def eventsBefore (cs : List Candlestick) (i : Nat) : Nat :=
  ((List.range i).flatMap (eventsAt cs)).length

/-- Number of windows whose start index passes the bullish test. -/
def bullishWindowCount (cs : List Candlestick) : Nat :=
  (List.range (cs.length - 2)).countP
    (fun i => decide ((cs.getD (i + 2) default).low > (cs.getD i default).high))

/-- Number of windows whose start index passes the bearish test. -/
def bearishWindowCount (cs : List Candlestick) : Nat :=
  (List.range (cs.length - 2)).countP
    (fun i => decide ((cs.getD (i + 2) default).high < (cs.getD i default).low))

/-- Number of windows passing at least one of the two tests. -/
def qualifyingWindowCount (cs : List Candlestick) : Nat :=
  (List.range (cs.length - 2)).countP
    (fun i => decide ((cs.getD (i + 2) default).low > (cs.getD i default).high) ||
              decide ((cs.getD (i + 2) default).high < (cs.getD i default).low))

/-- A three-candle input with a bullish gap: the low of the third candle
(110) is above the high of the first one (100), as in the bullish unit
test of src/tests/fvg-analysis.test.ts. -/
def bullishSample : List Candlestick :=
  [{ «open» := 90, close := 95, high := 100, low := 85, volume := 1, time := 1000 },
   { «open» := 101, close := 103, high := 104, low := 101, volume := 2, time := 2000 },
   { «open» := 111, close := 112, high := 113, low := 110, volume := 3, time := 3000 }]

/-- A three-candle input with a bearish gap: the high of the third candle
(90) is below the low of the first one (95). -/
def bearishSample : List Candlestick :=
  [{ «open» := 97, close := 96, high := 100, low := 95, volume := 1, time := 1000 },
   { «open» := 93, close := 92, high := 94, low := 91, volume := 2, time := 2000 },
   { «open» := 86, close := 88, high := 90, low := 85, volume := 3, time := 3000 }]

/-- A degenerate three-candle input whose first and third candles are
malformed (low above high), making its single window pass the bullish
test (5 > 0) and the bearish test (1 < 10) at the same time. -/
def degenSample : List Candlestick :=
  [{ «open» := 0, close := 0, high := 0, low := 10, volume := 1, time := 1000 },
   { «open» := 0, close := 0, high := 0, low := 0, volume := 2, time := 2000 },
   { «open» := 0, close := 0, high := 1, low := 5, volume := 3, time := 3000 }]

/-- Four candles where the window starting at index 1 is bullish: the low
of the candle at index 3 (6) is above the high of the candle at index 1
(5).  The window starting at index 0 emits nothing. -/
def csMidA : List Candlestick :=
  [{ «open» := 9, close := 9, high := 10, low := 9, volume := 1, time := 1000 },
   { «open» := 4, close := 5, high := 5, low := 4, volume := 1, time := 2000 },
   { «open» := 8, close := 9, high := 9, low := 8, volume := 1, time := 3000 },
   { «open» := 6, close := 7, high := 7, low := 6, volume := 1, time := 4000 }]

/-- The same four candles as csMidA except that the candle at index 1,
which is the middle candle of the window starting at index 0, has a
different high (7): the window starting at index 1 is no longer bullish
(6 > 7 fails), so the output changes. -/
def csMidB : List Candlestick :=
  [{ «open» := 9, close := 9, high := 10, low := 9, volume := 1, time := 1000 },
   { «open» := 4, close := 5, high := 7, low := 4, volume := 1, time := 2000 },
   { «open» := 8, close := 9, high := 9, low := 8, volume := 1, time := 3000 },
   { «open» := 6, close := 7, high := 7, low := 6, volume := 1, time := 4000 }]

/-! Structural lemmas connecting the recursive scan with the indexed view
of the loop. -/

theorem eventsAt_cons (c : Candlestick) (t : List Candlestick) (i : Nat) :
    eventsAt (c :: t) (i + 1) = eventsAt t i := by
  unfold eventsAt
  rw [show i + 1 + 1 = (i + 1) + 1 from rfl, show i + 1 + 2 = (i + 2) + 1 from rfl]
  rw [List.getD_cons_succ, List.getD_cons_succ, List.getD_cons_succ]

theorem fvgScan_eq_flatMap (cs : List Candlestick) :
    fvgScan cs = (List.range (cs.length - 2)).flatMap (eventsAt cs) := by
  induction cs with
  | nil => rfl
  | cons c1 t ih =>
    cases t with
    | nil => rfl
    | cons c2 t2 =>
      cases t2 with
      | nil => rfl
      | cons c3 r =>
        have hscan : fvgScan (c1 :: c2 :: c3 :: r) =
            windowEvents c1 c2 c3 ++ fvgScan (c2 :: c3 :: r) := rfl
        have hlen : (c1 :: c2 :: c3 :: r).length - 2 = ((c2 :: c3 :: r).length - 2) + 1 := by
          simp
        rw [hscan, ih, hlen, List.range_succ_eq_map, List.flatMap_cons, List.flatMap_map]
        have h0 : eventsAt (c1 :: c2 :: c3 :: r) 0 = windowEvents c1 c2 c3 := rfl
        have h1 : (fun a => eventsAt (c1 :: c2 :: c3 :: r) (Nat.succ a)) =
            eventsAt (c2 :: c3 :: r) := by
          funext a
          exact eventsAt_cons c1 (c2 :: c3 :: r) a
        rw [h0, h1]

theorem fvgScan_eq_nil (cs : List Candlestick) (h : cs.length < 3) : fvgScan cs = [] := by
  rcases cs with _ | ⟨a, _ | ⟨b, _ | ⟨c, r⟩⟩⟩
  · rfl
  · rfl
  · rfl
  · simp only [List.length_cons] at h
    omega

theorem fvgAnalysisAction_data (cs : List Candlestick) :
    (fvgAnalysisAction cs).data = some (fvgScan cs) := by
  by_cases h : cs.length < 3
  · simp [fvgAnalysisAction, h, fvgScan_eq_nil cs h]
  · simp [fvgAnalysisAction, h]

theorem fvgScan_decomp (cs : List Candlestick) (i : Nat) (h : i + 2 < cs.length) :
    fvgScan cs = (List.range i).flatMap (eventsAt cs) ++
      (eventsAt cs i ++ (List.range' (i + 1) (cs.length - 3 - i)).flatMap (eventsAt cs)) := by
  rw [fvgScan_eq_flatMap cs]
  have h1 : cs.length - 2 = ((cs.length - 3 - i) + 1) + i := by omega
  rw [List.range_eq_range', h1, ← List.range'_append_1 0 i ((cs.length - 3 - i) + 1),
      List.flatMap_append, Nat.zero_add, List.range'_succ, List.flatMap_cons,
      ← List.range_eq_range']

theorem windowEvents_length (c1 c2 c3 : Candlestick) :
    (windowEvents c1 c2 c3).length =
      (if c3.low > c1.high then 1 else 0) + (if c3.high < c1.low then 1 else 0) := by
  by_cases h1 : c3.low > c1.high <;> by_cases h2 : c3.high < c1.low <;>
    simp [windowEvents, h1, h2]

theorem eventsAt_length (cs : List Candlestick) (i : Nat) :
    (eventsAt cs i).length =
      (if (cs.getD (i + 2) default).low > (cs.getD i default).high then 1 else 0) +
      (if (cs.getD (i + 2) default).high < (cs.getD i default).low then 1 else 0) :=
  windowEvents_length _ _ _

theorem length_flatMap_countP_pair {α β : Type} (l : List α) (f : α → List β)
    (P Q : α → Prop) [DecidablePred P] [DecidablePred Q]
    (hf : ∀ a ∈ l, (f a).length = (if P a then 1 else 0) + (if Q a then 1 else 0)) :
    (l.flatMap f).length =
      l.countP (fun a => decide (P a)) + l.countP (fun a => decide (Q a)) := by
  induction l with
  | nil => simp
  | cons a t ih =>
    have ht : ∀ x ∈ t, (f x).length = (if P x then 1 else 0) + (if Q x then 1 else 0) :=
      fun x hx => hf x (List.mem_cons_of_mem a hx)
    have ha := hf a (List.mem_cons_self a t)
    rw [List.flatMap_cons, List.length_append, ha, ih ht, List.countP_cons, List.countP_cons]
    by_cases hP : P a <;> by_cases hQ : Q a <;> simp [hP, hQ] <;> omega

theorem length_flatMap_countP {α β : Type} (l : List α) (f : α → List β)
    (P : α → Prop) [DecidablePred P]
    (hf : ∀ a ∈ l, (f a).length = if P a then 1 else 0) :
    (l.flatMap f).length = l.countP (fun a => decide (P a)) := by
  induction l with
  | nil => simp
  | cons a t ih =>
    have ht : ∀ x ∈ t, (f x).length = if P x then 1 else 0 :=
      fun x hx => hf x (List.mem_cons_of_mem a hx)
    have ha := hf a (List.mem_cons_self a t)
    rw [List.flatMap_cons, List.length_append, ha, ih ht, List.countP_cons]
    by_cases hP : P a
    · simp [hP]
      omega
    · simp [hP]

theorem gapSize_pos_of_mem_windowEvents (c1 c2 c3 : Candlestick)
    (e : FvgAnalysisResult) (he : e ∈ windowEvents c1 c2 c3) : 0 < e.gapSize := by
  simp only [windowEvents, List.mem_append] at he
  rcases he with he | he
  · by_cases hc : c3.low > c1.high
    · rw [if_pos hc] at he
      simp only [List.mem_singleton] at he
      subst he
      simpa using sub_pos.mpr hc
    · rw [if_neg hc] at he
      simp at he
  · by_cases hc : c3.high < c1.low
    · rw [if_pos hc] at he
      simp only [List.mem_singleton] at he
      subst he
      simpa using sub_pos.mpr hc
    · rw [if_neg hc] at he
      simp at he

/-! Claim theorems. -/

/-- Claim C1: for every input array of candlesticks and every window start
index i with i+2 below the length, if the low of the third candle of the
window is above the high of the first one, the data of fvgAnalysisAction
holds at the corresponding position (eventsBefore cs i, the number of
events of the earlier windows) a bullish event with startTime the time of
the first candle, endTime the time of the third candle, gapSize the low of
the third minus the high of the first, and volume the sum of the three
volumes. -/
theorem C1_bullish_event_at_position (cs : List Candlestick) (i : Nat)
    (h : i + 2 < cs.length)
    (hb : (cs.getD (i + 2) default).low > (cs.getD i default).high) :
    ∃ l, (fvgAnalysisAction cs).data = some l ∧
      l[eventsBefore cs i]? = some
        { fvgType := FvgType.bullish
          startTime := (cs.getD i default).time
          endTime := (cs.getD (i + 2) default).time
          gapSize := (cs.getD (i + 2) default).low - (cs.getD i default).high
          volume := (cs.getD i default).volume + (cs.getD (i + 1) default).volume +
                    (cs.getD (i + 2) default).volume } := by
  refine ⟨fvgScan cs, fvgAnalysisAction_data cs, ?_⟩
  have hb1 : eventsBefore cs i = ((List.range i).flatMap (eventsAt cs)).length := rfl
  rw [fvgScan_decomp cs i h, hb1, List.getElem?_append_right (Nat.le_refl _), Nat.sub_self]
  simp only [eventsAt, windowEvents, if_pos hb]
  simp

theorem C1_witness :
    0 + 2 < bullishSample.length ∧
    (bullishSample.getD (0 + 2) default).low > (bullishSample.getD 0 default).high ∧
    (∃ l, (fvgAnalysisAction bullishSample).data = some l ∧
      l[eventsBefore bullishSample 0]? = some
        { fvgType := FvgType.bullish
          startTime := (bullishSample.getD 0 default).time
          endTime := (bullishSample.getD (0 + 2) default).time
          gapSize := (bullishSample.getD (0 + 2) default).low -
                     (bullishSample.getD 0 default).high
          volume := (bullishSample.getD 0 default).volume +
                    (bullishSample.getD (0 + 1) default).volume +
                    (bullishSample.getD (0 + 2) default).volume }) :=
  ⟨by decide, by decide, C1_bullish_event_at_position bullishSample 0 (by decide) (by decide)⟩

/-- Claim C2: for every input array of candlesticks and every window start
index i with i+2 below the length, if the high of the third candle of the
window is below the low of the first one, the data of fvgAnalysisAction
holds at the corresponding position (after the events of the earlier
windows and after the bullish event of this window when there is one) a
bearish event with startTime the time of the first candle, endTime the
time of the third candle, gapSize the low of the first minus the high of
the third, and volume the sum of the three volumes. -/
theorem C2_bearish_event_at_position (cs : List Candlestick) (i : Nat)
    (h : i + 2 < cs.length)
    (hb : (cs.getD (i + 2) default).high < (cs.getD i default).low) :
    ∃ l, (fvgAnalysisAction cs).data = some l ∧
      l[eventsBefore cs i +
          (if (cs.getD (i + 2) default).low > (cs.getD i default).high then 1 else 0)]? =
        some
          { fvgType := FvgType.bearish
            startTime := (cs.getD i default).time
            endTime := (cs.getD (i + 2) default).time
            gapSize := (cs.getD i default).low - (cs.getD (i + 2) default).high
            volume := (cs.getD i default).volume + (cs.getD (i + 1) default).volume +
                      (cs.getD (i + 2) default).volume } := by
  refine ⟨fvgScan cs, fvgAnalysisAction_data cs, ?_⟩
  have hb1 : eventsBefore cs i = ((List.range i).flatMap (eventsAt cs)).length := rfl
  rw [fvgScan_decomp cs i h, hb1,
      List.getElem?_append_right (Nat.le_add_right _ _), Nat.add_sub_cancel_left]
  by_cases hbull : (cs.getD (i + 2) default).low > (cs.getD i default).high
  · rw [if_pos hbull]
    simp only [eventsAt, windowEvents, if_pos hbull, if_pos hb]
    simp
  · rw [if_neg hbull]
    simp only [eventsAt, windowEvents, if_neg hbull, if_pos hb]
    simp

theorem C2_witness :
    0 + 2 < bearishSample.length ∧
    (bearishSample.getD (0 + 2) default).high < (bearishSample.getD 0 default).low ∧
    (∃ l, (fvgAnalysisAction bearishSample).data = some l ∧
      l[eventsBefore bearishSample 0 +
          (if (bearishSample.getD (0 + 2) default).low > (bearishSample.getD 0 default).high
           then 1 else 0)]? =
        some
          { fvgType := FvgType.bearish
            startTime := (bearishSample.getD 0 default).time
            endTime := (bearishSample.getD (0 + 2) default).time
            gapSize := (bearishSample.getD 0 default).low -
                       (bearishSample.getD (0 + 2) default).high
            volume := (bearishSample.getD 0 default).volume +
                      (bearishSample.getD (0 + 1) default).volume +
                      (bearishSample.getD (0 + 2) default).volume }) :=
  ⟨by decide, by decide, C2_bearish_event_at_position bearishSample 0 (by decide) (by decide)⟩

/-- Claim C4: for every input with fewer than 3 candlesticks, including the
empty array, fvgAnalysisAction returns a success (isSuccess true) carrying
the empty event list; insufficient data is not reported as a failure. -/
theorem C4_insufficient_data_success (cs : List Candlestick) (h : cs.length < 3) :
    fvgAnalysisAction cs =
      { isSuccess := true
        message := "Not enough data to perform FVG analysis."
        data := some [] } := by
  simp [fvgAnalysisAction, h]

theorem C4_witness :
    ([] : List Candlestick).length < 3 ∧
    fvgAnalysisAction [] =
      { isSuccess := true
        message := "Not enough data to perform FVG analysis."
        data := some [] } :=
  ⟨by decide, C4_insufficient_data_success [] (by decide)⟩

/-- Claim C7: for every well-typed input array of candlesticks, including
malformed candles with low above high, fvgAnalysisAction returns a success
outcome carrying data; the failure branch is unreachable. -/
theorem C7_no_failure (cs : List Candlestick) :
    (fvgAnalysisAction cs).isSuccess = true ∧ (fvgAnalysisAction cs).data.isSome = true := by
  by_cases h : cs.length < 3 <;> simp [fvgAnalysisAction, h]

/-- Claim C8: fvgAnalysisAction is a pure function of its input, so two
invocations on the same input agree on the success flag, the message and
the event sequence field for field. -/
theorem C8_deterministic (cs : List Candlestick) :
    fvgAnalysisAction cs = fvgAnalysisAction cs ∧
    (fvgAnalysisAction cs).isSuccess = (fvgAnalysisAction cs).isSuccess ∧
    (fvgAnalysisAction cs).message = (fvgAnalysisAction cs).message ∧
    (fvgAnalysisAction cs).data = (fvgAnalysisAction cs).data :=
  ⟨rfl, rfl, rfl, rfl⟩

/-- Claim C3, counterexample to the count part: on degenSample the single
window is one qualifying window, yet it emits two events (it passes the
bullish and the bearish test at once), so the output length is 2 and
differs from the number of qualifying windows. -/
theorem C3_count_counterexample :
    qualifyingWindowCount degenSample = 1 ∧
    (∃ l, (fvgAnalysisAction degenSample).data = some l ∧ l.length = 2) :=
  ⟨by decide, fvgScan degenSample, fvgAnalysisAction_data degenSample, by decide⟩

/-- Claim C3 as amended: a window passing neither test contributes no
event; the output is exactly the concatenation of the per-window events in
ascending order of the window start index, so its length is the number of
windows passing the bullish test plus the number passing the bearish test;
and when every candle has low at most high this sum equals the number of
qualifying windows. -/
theorem C3_amended_count_and_order :
    (∀ c1 c2 c3 : Candlestick, ¬(c3.low > c1.high) → ¬(c3.high < c1.low) →
        windowEvents c1 c2 c3 = []) ∧
    (∀ (cs : List Candlestick) (l : List FvgAnalysisResult),
        (fvgAnalysisAction cs).data = some l →
        l = (List.range (cs.length - 2)).flatMap (eventsAt cs) ∧
        l.length = bullishWindowCount cs + bearishWindowCount cs) ∧
    (∀ (cs : List Candlestick) (l : List FvgAnalysisResult),
        (∀ c ∈ cs, c.low ≤ c.high) → (fvgAnalysisAction cs).data = some l →
        l.length = qualifyingWindowCount cs) := by
  refine ⟨?_, ?_, ?_⟩
  · intro c1 c2 c3 h1 h2
    simp [windowEvents, h1, h2]
  · intro cs l hl
    have hd := fvgAnalysisAction_data cs
    rw [hl] at hd
    have hleq : l = fvgScan cs := Option.some.inj hd
    subst hleq
    refine ⟨fvgScan_eq_flatMap cs, ?_⟩
    rw [fvgScan_eq_flatMap cs, bullishWindowCount, bearishWindowCount]
    exact length_flatMap_countP_pair (List.range (cs.length - 2)) (eventsAt cs)
      (fun i => (cs.getD (i + 2) default).low > (cs.getD i default).high)
      (fun i => (cs.getD (i + 2) default).high < (cs.getD i default).low)
      (fun a _ => eventsAt_length cs a)
  · intro cs l hwf hl
    have hd := fvgAnalysisAction_data cs
    rw [hl] at hd
    have hleq : l = fvgScan cs := Option.some.inj hd
    subst hleq
    have hq : qualifyingWindowCount cs = (List.range (cs.length - 2)).countP
        (fun i => decide ((cs.getD (i + 2) default).low > (cs.getD i default).high ∨
                          (cs.getD (i + 2) default).high < (cs.getD i default).low)) := by
      unfold qualifyingWindowCount
      congr 1
      funext i
      exact Bool.or_eq_decide _ _
    rw [fvgScan_eq_flatMap cs, hq]
    apply length_flatMap_countP (List.range (cs.length - 2)) (eventsAt cs)
      (fun i => (cs.getD (i + 2) default).low > (cs.getD i default).high ∨
                (cs.getD (i + 2) default).high < (cs.getD i default).low)
    intro a ha
    have halt : a < cs.length - 2 := List.mem_range.mp ha
    have h1lt : a < cs.length := by omega
    have h3lt : a + 2 < cs.length := by omega
    have hm1 : cs.getD a default ∈ cs := by
      rw [List.getD_eq_getElem cs default h1lt]
      exact List.getElem_mem h1lt
    have hm3 : cs.getD (a + 2) default ∈ cs := by
      rw [List.getD_eq_getElem cs default h3lt]
      exact List.getElem_mem h3lt
    have hw1 := hwf _ hm1
    have hw3 := hwf _ hm3
    rw [eventsAt_length]
    by_cases hb1 : (cs.getD (a + 2) default).low > (cs.getD a default).high
    · have hb2 : ¬(cs.getD (a + 2) default).high < (cs.getD a default).low := by
        intro hb2
        linarith
      rw [if_pos hb1, if_neg hb2, if_pos (Or.inl hb1)]
    · by_cases hb2 : (cs.getD (a + 2) default).high < (cs.getD a default).low
      · rw [if_neg hb1, if_pos hb2, if_pos (Or.inr hb2)]
      · rw [if_neg hb1, if_neg hb2, if_neg ?hno]
        case hno =>
          rintro (hc | hc)
          · exact hb1 hc
          · exact hb2 hc

theorem C3_amended_witness :
    windowEvents (bearishSample.getD 1 default) (bearishSample.getD 1 default)
        (bearishSample.getD 1 default) = [] ∧
    (fvgScan degenSample = (List.range (degenSample.length - 2)).flatMap (eventsAt degenSample) ∧
      (fvgScan degenSample).length =
        bullishWindowCount degenSample + bearishWindowCount degenSample) ∧
    (fvgScan bullishSample).length = qualifyingWindowCount bullishSample :=
  ⟨C3_amended_count_and_order.1 _ _ _ (by decide) (by decide),
   C3_amended_count_and_order.2.1 degenSample (fvgScan degenSample)
     (fvgAnalysisAction_data degenSample),
   C3_amended_count_and_order.2.2 bullishSample (fvgScan bullishSample) (by decide)
     (fvgAnalysisAction_data bullishSample)⟩

/-- Claim C5: the two tests are evaluated unconditionally for every window:
for a window whose first and third candles have low at most high, the two
conditions cannot hold together and at most one event is emitted; and on
the degenerate input degenSample (malformed candles with low above high)
the single window passes both tests and emits a bullish and a bearish
event. -/
theorem C5_unconditional_tests :
    (∀ c1 c2 c3 : Candlestick, c1.low ≤ c1.high → c3.low ≤ c3.high →
        ¬((c3.low > c1.high) ∧ (c3.high < c1.low)) ∧
        (windowEvents c1 c2 c3).length ≤ 1) ∧
    (∃ l, (fvgAnalysisAction degenSample).data = some l ∧
        l.map FvgAnalysisResult.fvgType = [FvgType.bullish, FvgType.bearish]) := by
  constructor
  · intro c1 c2 c3 hw1 hw3
    have hne : ¬((c3.low > c1.high) ∧ (c3.high < c1.low)) := by
      rintro ⟨hb1, hb2⟩
      linarith
    refine ⟨hne, ?_⟩
    by_cases hb1 : c3.low > c1.high
    · by_cases hb2 : c3.high < c1.low
      · exact absurd ⟨hb1, hb2⟩ hne
      · simp [windowEvents, hb1, hb2]
    · by_cases hb2 : c3.high < c1.low <;> simp [windowEvents, hb1, hb2]
  · exact ⟨fvgScan degenSample, fvgAnalysisAction_data degenSample, by decide⟩

theorem C5_witness :
    ¬(((bullishSample.getD 2 default).low > (bullishSample.getD 0 default).high) ∧
        ((bullishSample.getD 2 default).high < (bullishSample.getD 0 default).low)) ∧
    (windowEvents (bullishSample.getD 0 default) (bullishSample.getD 1 default)
        (bullishSample.getD 2 default)).length ≤ 1 :=
  C5_unconditional_tests.1 _ _ _ (by decide) (by decide)

/-- Claim C6, counterexample: the two four-candle inputs csMidA and csMidB
agree everywhere (all volumes and times, and the candles at indices 0, 2
and 3) except in the price fields of the candle at index 1, which is the
middle candle of the window starting at index 0; yet the outputs differ,
because that candle is also the first candle of the window starting at
index 1. -/
theorem C6_middle_price_counterexample :
    csMidA.length = csMidB.length ∧
    csMidA.getD 0 default = csMidB.getD 0 default ∧
    csMidA.getD 2 default = csMidB.getD 2 default ∧
    csMidA.getD 3 default = csMidB.getD 3 default ∧
    (csMidA.getD 1 default).volume = (csMidB.getD 1 default).volume ∧
    (csMidA.getD 1 default).time = (csMidB.getD 1 default).time ∧
    fvgAnalysisAction csMidA ≠ fvgAnalysisAction csMidB := by
  refine ⟨rfl, rfl, rfl, rfl, rfl, rfl, ?_⟩
  intro hcon
  have hdata : (fvgAnalysisAction csMidA).data = (fvgAnalysisAction csMidB).data := by
    rw [hcon]
  rw [fvgAnalysisAction_data, fvgAnalysisAction_data] at hdata
  have h2 := Option.some.inj hdata
  have hA : (fvgScan csMidA).length = 1 := by decide
  have hB : (fvgScan csMidB).length = 0 := by decide
  rw [h2, hB] at hA
  exact absurd hA (by omega)

/-- Claim C6 as amended: the price fields of the middle candle do not
influence the events of its own window, which uses only its volume; in
particular on a three-candle input (where the middle candle is the middle
of every window) changing its price fields leaves the output of
fvgAnalysisAction unchanged. -/
theorem C6_amended_middle_price_noninterference :
    (∀ c1 c2 c2b c3 : Candlestick, c2.volume = c2b.volume →
        windowEvents c1 c2 c3 = windowEvents c1 c2b c3) ∧
    (∀ a b bb c : Candlestick, b.volume = bb.volume → b.time = bb.time →
        fvgAnalysisAction [a, b, c] = fvgAnalysisAction [a, bb, c]) := by
  have h1 : ∀ c1 c2 c2b c3 : Candlestick, c2.volume = c2b.volume →
      windowEvents c1 c2 c3 = windowEvents c1 c2b c3 := by
    intro c1 c2 c2b c3 hv
    simp [windowEvents, hv]
  refine ⟨h1, ?_⟩
  intro a b bb c hv _
  have hw := h1 a b bb c hv
  have hs : ∀ x y z : Candlestick, fvgScan [x, y, z] = windowEvents x y z ++ [] :=
    fun x y z => rfl
  simp [fvgAnalysisAction, hs, hw]

theorem C6_amended_witness :
    windowEvents (csMidA.getD 0 default) (csMidA.getD 1 default) (csMidA.getD 2 default) =
      windowEvents (csMidA.getD 0 default) (csMidB.getD 1 default) (csMidA.getD 2 default) ∧
    fvgAnalysisAction [csMidA.getD 0 default, csMidA.getD 1 default, csMidA.getD 2 default] =
      fvgAnalysisAction [csMidA.getD 0 default, csMidB.getD 1 default, csMidA.getD 2 default] :=
  ⟨C6_amended_middle_price_noninterference.1 _ _ _ _ rfl,
   C6_amended_middle_price_noninterference.2 _ _ _ _ rfl rfl⟩

/-- Claim C9: every event emitted by fvgAnalysisAction, on every input
including malformed candles, has a gapSize strictly greater than zero,
because both detection tests are strict inequalities. -/
theorem C9_gapSize_positive (cs : List Candlestick) (l : List FvgAnalysisResult)
    (e : FvgAnalysisResult) (hl : (fvgAnalysisAction cs).data = some l) (he : e ∈ l) :
    0 < e.gapSize := by
  have hd := fvgAnalysisAction_data cs
  rw [hl] at hd
  have hleq : l = fvgScan cs := Option.some.inj hd
  subst hleq
  rw [fvgScan_eq_flatMap] at he
  rcases List.mem_flatMap.mp he with ⟨i, _, hei⟩
  exact gapSize_pos_of_mem_windowEvents _ _ _ e hei

theorem C9_witness :
    0 < ((fvgScan degenSample).get ⟨0, by decide⟩).gapSize :=
  C9_gapSize_positive degenSample (fvgScan degenSample) _
    (fvgAnalysisAction_data degenSample)
    (List.get_mem (fvgScan degenSample) 0 (by decide))

/-- Claim C10: when a window passes both tests (possible only with
malformed candles), the bullish event sits immediately before the bearish
event of the same window: they occupy the positions eventsBefore cs i and
eventsBefore cs i + 1 of the output. -/
theorem C10_bullish_before_bearish (cs : List Candlestick) (i : Nat)
    (h : i + 2 < cs.length)
    (hbull : (cs.getD (i + 2) default).low > (cs.getD i default).high)
    (hbear : (cs.getD (i + 2) default).high < (cs.getD i default).low) :
    ∃ l, (fvgAnalysisAction cs).data = some l ∧
      l[eventsBefore cs i]? = some
        { fvgType := FvgType.bullish
          startTime := (cs.getD i default).time
          endTime := (cs.getD (i + 2) default).time
          gapSize := (cs.getD (i + 2) default).low - (cs.getD i default).high
          volume := (cs.getD i default).volume + (cs.getD (i + 1) default).volume +
                    (cs.getD (i + 2) default).volume } ∧
      l[eventsBefore cs i + 1]? = some
        { fvgType := FvgType.bearish
          startTime := (cs.getD i default).time
          endTime := (cs.getD (i + 2) default).time
          gapSize := (cs.getD i default).low - (cs.getD (i + 2) default).high
          volume := (cs.getD i default).volume + (cs.getD (i + 1) default).volume +
                    (cs.getD (i + 2) default).volume } := by
  refine ⟨fvgScan cs, fvgAnalysisAction_data cs, ?_, ?_⟩
  · have hb1 : eventsBefore cs i = ((List.range i).flatMap (eventsAt cs)).length := rfl
    rw [fvgScan_decomp cs i h, hb1, List.getElem?_append_right (Nat.le_refl _), Nat.sub_self]
    simp only [eventsAt, windowEvents, if_pos hbull]
    simp
  · have hb1 : eventsBefore cs i = ((List.range i).flatMap (eventsAt cs)).length := rfl
    rw [fvgScan_decomp cs i h, hb1,
        List.getElem?_append_right (Nat.le_add_right _ _), Nat.add_sub_cancel_left]
    simp only [eventsAt, windowEvents, if_pos hbull, if_pos hbear]
    simp

theorem C10_witness :
    0 + 2 < degenSample.length ∧
    (degenSample.getD (0 + 2) default).low > (degenSample.getD 0 default).high ∧
    (degenSample.getD (0 + 2) default).high < (degenSample.getD 0 default).low ∧
    (∃ l, (fvgAnalysisAction degenSample).data = some l ∧
      l[eventsBefore degenSample 0]? = some
        { fvgType := FvgType.bullish
          startTime := (degenSample.getD 0 default).time
          endTime := (degenSample.getD (0 + 2) default).time
          gapSize := (degenSample.getD (0 + 2) default).low -
                     (degenSample.getD 0 default).high
          volume := (degenSample.getD 0 default).volume +
                    (degenSample.getD (0 + 1) default).volume +
                    (degenSample.getD (0 + 2) default).volume } ∧
      l[eventsBefore degenSample 0 + 1]? = some
        { fvgType := FvgType.bearish
          startTime := (degenSample.getD 0 default).time
          endTime := (degenSample.getD (0 + 2) default).time
          gapSize := (degenSample.getD 0 default).low -
                     (degenSample.getD (0 + 2) default).high
          volume := (degenSample.getD 0 default).volume +
                    (degenSample.getD (0 + 1) default).volume +
                    (degenSample.getD (0 + 2) default).volume }) :=
  ⟨by decide, by decide, by decide,
   C10_bullish_before_bearish degenSample 0 (by decide) (by decide) (by decide)⟩

end Fvg
